import Mathlib

/-!
Shallow embedding of the Three-Tier-Application backend server.

The repository contains two variants of the same Express/MySQL server:
* `src/backend/server.js` — embedded below in namespace `Server`: validated
  create handlers, store-assigned (AUTO_INCREMENT) identifiers, idempotent
  delete, caught store errors, DB_PORT support.
* `src/unnamed/part_000` — embedded in namespace `Legacy`: no payload
  validation, application-computed max-id-plus-one identifiers, a delete
  handler that renumbers all remaining identifiers, no try/catch around the
  mutating handlers, hardcoded port 3306.

Machine integers of JavaScript are modelled by `Nat` (all quantities involved
— attempt counters, identifiers, list lengths, ports — are small non-negative
integers; no overflow is reachable). An absent-or-present JSON field is
`Option String`; JavaScript string falsiness (`!x` true for `undefined` and
`""`) is the `falsy` predicate. A database table is a list of rows in storage
order together with the AUTO_INCREMENT counter. Whether the store fails is an
explicit boolean (or, for the connection loop, a per-attempt boolean function);
a handler outcome distinguishes an HTTP response from an error that propagates
out of the handler (no response produced).
-/

/-- Outcome of an Express handler: an HTTP response with a status code and a
message body, or an error propagating out of the handler (the handler produced
no response at all). -/
inductive HResult where
  | resp (status : Nat) (body : String)
  | raise
deriving Repr, DecidableEq

/-- JavaScript falsiness of an optional string payload field: `!x` is true
when the field is absent (`undefined`) or the empty string. -/
def falsy (v : Option String) : Bool :=
  match v with
  | none => true
  | some s => s = ""

/- =========================================================
   Connection with retry (identical in both source files):
   `connectWithRetry = async (retries = 10, delay = 3000) => { for ... }`
   ========================================================= -/

/-- Result of `connectWithRetry`: a pool obtained on some attempt, the error
of the last attempt thrown after exhausting all attempts, or the `undefined`
the async function resolves to when the `for` loop body never runs. -/
inductive ConnectOutcome where
  | pool (attempt : Nat)
  | thrown (attempt : Nat)
  | undef
deriving Repr, DecidableEq

/-- Default value of the `retries` parameter of `connectWithRetry`. -/
def defaultRetries : Nat := 10

/-- Default value of the `delay` parameter of `connectWithRetry` (ms). -/
def defaultDelayMs : Nat := 3000

/-- The `for (let attempt = 1; attempt <= retries; attempt++)` loop of
`connectWithRetry`.  `succeeds k` says whether creating the pool and running
the `SELECT 1` validation query succeeds on attempt `k`.  On success the pool
is returned; on failure, if `attempt === retries` the error is rethrown,
otherwise the loop sleeps `delay` ms and continues. -/
def connectLoop (succeeds : Nat → Bool) (retries attempt : Nat) : ConnectOutcome :=
  if h : attempt ≤ retries then
    if succeeds attempt then
      ConnectOutcome.pool attempt
    else if h2 : attempt = retries then
      ConnectOutcome.thrown attempt
    else
      connectLoop succeeds retries (attempt + 1)
  else
    ConnectOutcome.undef
termination_by retries + 1 - attempt
decreasing_by
  simp_wf
  omega

/-- `connectWithRetry(retries, delay)`.  The `delay` parameter only affects
timing, never the outcome, and is kept to mirror the source signature. -/
def connectWithRetry (succeeds : Nat → Bool) (retries delay : Nat) : ConnectOutcome :=
  connectLoop succeeds retries 1

/- =========================================================
   Required environment variables check (identical in both files)
   ========================================================= -/

/-- `const REQUIRED_ENV_VARS = ['DB_HOST', 'DB_USER', 'DB_PASSWORD', 'DB_NAME']`. -/
def REQUIRED_ENV_VARS : List String := ["DB_HOST", "DB_USER", "DB_PASSWORD", "DB_NAME"]

/-- The `REQUIRED_ENV_VARS.forEach` check: `process.exit(1)` fires at the
first key whose value is falsy, naming that key in the error message.
Returns the key named by the exiting iteration, `none` when all are present. -/
def firstMissingEnv (env : String → Option String) : Option String :=
  REQUIRED_ENV_VARS.find? (fun k => falsy (env k))

/-- Observable outcome of process startup: `exited code` when `process.exit`
runs (missing environment variable, or the fatal catch of the init IIFE), or
`listening port` when `app.listen` is reached. -/
inductive StartupOutcome where
  | exited (code : Nat)
  | listening (port : Nat)
deriving Repr, DecidableEq

/-- Module evaluation and the init IIFE, common to both files: the env check
runs first (exit 1 naming the first missing key); then
`connectWithRetry()` with default arguments; then `ensureTables` (whose
success is the `tablesOk` flag); any error reaches the IIFE catch, which
exits with status 1; only then `app.listen(3500)`. -/
def startup (env : String → Option String) (succeeds : Nat → Bool)
    (tablesOk : Bool) : StartupOutcome :=
  match firstMissingEnv env with
  | some _ => StartupOutcome.exited 1
  | none =>
    match connectWithRetry succeeds defaultRetries defaultDelayMs with
    | ConnectOutcome.pool _ =>
        if tablesOk then StartupOutcome.listening 3500 else StartupOutcome.exited 1
    | _ => StartupOutcome.exited 1

namespace Server

/- =========================================================
   src/backend/server.js
   ========================================================= -/

/-- Pool configuration built in `connectWithRetry` of `server.js`.  The port
field holds the value `process.env.DB_PORT || 3306` that is passed to
`Number(...)` (the numeric coercion itself is not modelled: the claims are
about which value is chosen). -/
structure PoolConfig where
  host : Option String
  user : Option String
  password : Option String
  database : Option String
  port : String
deriving Repr, DecidableEq

/-- `mysql.createPool({ host: ..., port: Number(process.env.DB_PORT || 3306), ... })`. -/
def poolConfig (env : String → Option String) : PoolConfig :=
  { host := env "DB_HOST"
    user := env "DB_USER"
    password := env "DB_PASSWORD"
    database := env "DB_NAME"
    port :=
      match env "DB_PORT" with
      | none => "3306"
      | some s => if s = "" then "3306" else s }

/-- A row of the `student` table of `server.js` (`id INT AUTO_INCREMENT
PRIMARY KEY, name/roll_number/class_name VARCHAR NOT NULL`; the
`created_at` timestamp plays no role in any claim and is omitted). -/
structure StudentRow where
  id : Nat
  name : String
  rollNumber : String
  className : String
deriving Repr, DecidableEq

/-- A row of the `teacher` table of `server.js`. -/
structure TeacherRow where
  id : Nat
  name : String
  subject : String
  className : String
deriving Repr, DecidableEq

/-- The `student` table: rows in storage order plus the AUTO_INCREMENT
counter the store uses for the next insert. -/
structure StudentTable where
  rows : List StudentRow
  nextId : Nat
deriving Repr, DecidableEq

/-- The `teacher` table. -/
structure TeacherTable where
  rows : List TeacherRow
  nextId : Nat
deriving Repr, DecidableEq

/-- `INSERT INTO student (name, roll_number, class_name) VALUES (?, ?, ?)`:
the store assigns the identifier from its AUTO_INCREMENT counter and appends
the row. -/
def insertStudent (t : StudentTable) (name rollNumber className : String) :
    StudentTable :=
  { rows := t.rows ++ [{ id := t.nextId, name := name,
                         rollNumber := rollNumber, className := className }]
    nextId := t.nextId + 1 }

/-- `INSERT INTO teacher (name, subject, class) VALUES (?, ?, ?)`. -/
def insertTeacher (t : TeacherTable) (name subject className : String) :
    TeacherTable :=
  { rows := t.rows ++ [{ id := t.nextId, name := name,
                         subject := subject, className := className }]
    nextId := t.nextId + 1 }

/-- `DELETE FROM student WHERE id = ?`: removes exactly the rows whose
identifier matches; the AUTO_INCREMENT counter is untouched. -/
def deleteStudentRows (t : StudentTable) (i : Nat) : StudentTable :=
  { rows := t.rows.filter (fun r => r.id != i), nextId := t.nextId }

/-- `DELETE FROM teacher WHERE id = ?`. -/
def deleteTeacherRows (t : TeacherTable) (i : Nat) : TeacherTable :=
  { rows := t.rows.filter (fun r => r.id != i), nextId := t.nextId }

/-- `POST /addstudent` of `server.js`: 400 when any of name/rollNo/class is
absent or empty (checked before any query), 500 from the catch when the
insert fails, otherwise insert and 201. -/
def addStudentHandler (dbFails : Bool) (t : StudentTable)
    (name rollNo className : Option String) : HResult × StudentTable :=
  if falsy name || falsy rollNo || falsy className then
    (HResult.resp 400 "Invalid payload: name, rollNo, class required", t)
  else if dbFails then
    (HResult.resp 500 "Internal server error", t)
  else
    (HResult.resp 201 "Student added successfully",
      insertStudent t (name.getD "") (rollNo.getD "") (className.getD ""))

/-- `POST /addteacher` of `server.js`. -/
def addTeacherHandler (dbFails : Bool) (t : TeacherTable)
    (name subject className : Option String) : HResult × TeacherTable :=
  if falsy name || falsy subject || falsy className then
    (HResult.resp 400 "Invalid payload", t)
  else if dbFails then
    (HResult.resp 500 "Internal server error", t)
  else
    (HResult.resp 201 "Teacher added successfully",
      insertTeacher t (name.getD "") (subject.getD "") (className.getD ""))

/-- `DELETE /student/:id` of `server.js`: the delete query inside try/catch,
then `res.json(...)` (status 200 by default) whether or not a row matched;
500 from the catch when the query fails. -/
def deleteStudentHandler (dbFails : Bool) (t : StudentTable) (i : Nat) :
    HResult × StudentTable :=
  if dbFails then
    (HResult.resp 500 "Internal server error", t)
  else
    (HResult.resp 200 "Student deleted successfully", deleteStudentRows t i)

/-- `DELETE /teacher/:id` of `server.js`. -/
def deleteTeacherHandler (dbFails : Bool) (t : TeacherTable) (i : Nat) :
    HResult × TeacherTable :=
  if dbFails then
    (HResult.resp 500 "Internal server error", t)
  else
    (HResult.resp 200 "Teacher deleted successfully", deleteTeacherRows t i)

/-- `GET /student` of `server.js`: an async handler with no try/catch — when
the query fails no response is produced (`none`) and the rejection propagates
out of the handler. -/
def getStudentHandler (dbFails : Bool) (t : StudentTable) :
    Option (Nat × List StudentRow) :=
  if dbFails then none else some (200, t.rows)

/-- `GET /teacher` of `server.js`. -/
def getTeacherHandler (dbFails : Bool) (t : TeacherTable) :
    Option (Nat × List TeacherRow) :=
  if dbFails then none else some (200, t.rows)

/-- `GET /` of `server.js`: the student list wrapped in a message envelope;
no try/catch. -/
def rootHandler (dbFails : Bool) (t : StudentTable) :
    Option (Nat × String × List StudentRow) :=
  if dbFails then none else some (200, "From Backend", t.rows)

/-- `GET /health` of `server.js`: unconditionally `200 {status:'UP'}`. -/
def healthHandler : Nat × String := (200, "UP")

/-- `GET /ready` of `server.js`: `SELECT 1` inside try/catch, so a response
is always produced (`some`): `200 READY` when the query succeeds,
`500 NOT_READY` when it fails. -/
def readyHandler (dbFails : Bool) : Option (Nat × String) :=
  some (if dbFails then (500, "NOT_READY") else (200, "READY"))

end Server

namespace Legacy

/- =========================================================
   src/unnamed/part_000
   ========================================================= -/

/-- Pool configuration built in `connectWithRetry` of `part_000`: the port
is the literal `3306`; `process.env.DB_PORT` is never read. -/
structure PoolConfig where
  host : Option String
  user : Option String
  password : Option String
  database : Option String
  port : Nat
deriving Repr, DecidableEq

/-- `mysql.createPool({ host: process.env.DB_HOST, ..., port: 3306, ... })`. -/
def poolConfig (env : String → Option String) : PoolConfig :=
  { host := env "DB_HOST"
    user := env "DB_USER"
    password := env "DB_PASSWORD"
    database := env "DB_NAME"
    port := 3306 }

/-- A row of the `student` table of `part_000` (`name/roll_number/class`
columns are nullable there, and the handler inserts the payload fields
unvalidated, so a field is `Option String`; `created_at` is omitted as in
`Server`). -/
structure StudentRow where
  id : Nat
  name : Option String
  rollNumber : Option String
  className : Option String
deriving Repr, DecidableEq

/-- A row of the `teacher` table of `part_000`. -/
structure TeacherRow where
  id : Nat
  name : Option String
  subject : Option String
  className : Option String
deriving Repr, DecidableEq

/-- The `student` table of `part_000`.  Every insert supplies an explicit
identifier, so the AUTO_INCREMENT counter is never consulted and the table
is just its rows in storage order. -/
structure StudentTable where
  rows : List StudentRow
deriving Repr, DecidableEq

/-- The `teacher` table of `part_000`. -/
structure TeacherTable where
  rows : List TeacherRow
deriving Repr, DecidableEq

/-- `getLastStudentID`: `SELECT MAX(id) AS lastID FROM student`, then
`result[0].lastID || 0` (MAX of an empty table is NULL, hence 0). -/
def getLastStudentID (t : StudentTable) : Nat :=
  (t.rows.map (fun r => r.id)).foldr max 0

/-- `getLastTeacherID`. -/
def getLastTeacherID (t : TeacherTable) : Nat :=
  (t.rows.map (fun r => r.id)).foldr max 0

/-- `POST /addstudent` of `part_000`: no validation and no try/catch — a
failing query propagates out of the handler; otherwise the application
computes `nextID = getLastStudentID() + 1`, inserts the row with that
explicit identifier, and `res.json(...)` answers with status 200. -/
def addStudentHandler (dbFails : Bool) (t : StudentTable)
    (name rollNo className : Option String) : HResult × StudentTable :=
  if dbFails then
    (HResult.raise, t)
  else
    let nextID := getLastStudentID t + 1
    (HResult.resp 200 "Student added successfully",
      { rows := t.rows ++ [{ id := nextID, name := name,
                             rollNumber := rollNo, className := className }] })

/-- `POST /addteacher` of `part_000`. -/
def addTeacherHandler (dbFails : Bool) (t : TeacherTable)
    (name subject className : Option String) : HResult × TeacherTable :=
  if dbFails then
    (HResult.raise, t)
  else
    let nextID := getLastTeacherID t + 1
    (HResult.resp 200 "Teacher added successfully",
      { rows := t.rows ++ [{ id := nextID, name := name,
                             subject := subject, className := className }] })

/-- Insertion of one identifier into an ascending list (used to model the
`ORDER BY id` of the renumbering SELECT). -/
def insertSorted (x : Nat) : List Nat → List Nat
  | [] => [x]
  | y :: ys => if x ≤ y then x :: y :: ys else y :: insertSorted x ys

/-- `SELECT id FROM student ORDER BY id`: the identifiers in ascending
order. -/
def sortIds : List Nat → List Nat
  | [] => []
  | x :: xs => insertSorted x (sortIds xs)

/-- One `UPDATE student SET id = ? WHERE id = ?` statement. -/
def applyIdUpdate (rows : List StudentRow) (newId oldId : Nat) :
    List StudentRow :=
  rows.map (fun r => if r.id = oldId then { r with id := newId } else r)

/-- One `UPDATE teacher SET id = ? WHERE id = ?` statement. -/
def applyTeacherIdUpdate (rows : List TeacherRow) (newId oldId : Nat) :
    List TeacherRow :=
  rows.map (fun r => if r.id = oldId then { r with id := newId } else r)

/-- The renumbering step of the `part_000` delete handlers:
`rows.map((row, index) => UPDATE ... SET id = index + 1 WHERE id = row.id)`
over the id-ordered selection.  The source fires the updates through
`Promise.all`; they are modelled as executing in index order (the concrete
instances used below involve a single update, for which every schedule
agrees). -/
def renumberStudents (rows : List StudentRow) : List StudentRow :=
  ((sortIds (rows.map (fun r => r.id))).enum).foldl
    (fun acc p => applyIdUpdate acc (p.fst + 1) p.snd) rows

/-- Renumbering for the teacher table. -/
def renumberTeachers (rows : List TeacherRow) : List TeacherRow :=
  ((sortIds (rows.map (fun r => r.id))).enum).foldl
    (fun acc p => applyTeacherIdUpdate acc (p.fst + 1) p.snd) rows

/-- `DELETE /student/:id` of `part_000`: no try/catch (a failing query
propagates); otherwise delete the matching rows, renumber all remaining
identifiers sequentially, and answer 200. -/
def deleteStudentHandler (dbFails : Bool) (t : StudentTable) (i : Nat) :
    HResult × StudentTable :=
  if dbFails then
    (HResult.raise, t)
  else
    (HResult.resp 200 "Student deleted successfully",
      { rows := renumberStudents (t.rows.filter (fun r => r.id != i)) })

/-- `DELETE /teacher/:id` of `part_000`. -/
def deleteTeacherHandler (dbFails : Bool) (t : TeacherTable) (i : Nat) :
    HResult × TeacherTable :=
  if dbFails then
    (HResult.raise, t)
  else
    (HResult.resp 200 "Teacher deleted successfully",
      { rows := renumberTeachers (t.rows.filter (fun r => r.id != i)) })

/-- `GET /student` of `part_000`: no try/catch, identical to `server.js`. -/
def getStudentHandler (dbFails : Bool) (t : StudentTable) :
    Option (Nat × List StudentRow) :=
  if dbFails then none else some (200, t.rows)

/-- `GET /teacher` of `part_000`. -/
def getTeacherHandler (dbFails : Bool) (t : TeacherTable) :
    Option (Nat × List TeacherRow) :=
  if dbFails then none else some (200, t.rows)

/-- `GET /` of `part_000`. -/
def rootHandler (dbFails : Bool) (t : StudentTable) :
    Option (Nat × String × List StudentRow) :=
  if dbFails then none else some (200, "From Backend", t.rows)

/-- `GET /health` of `part_000`. -/
def healthHandler : Nat × String := (200, "UP")

/-- `GET /ready` of `part_000` (identical to `server.js`). -/
def readyHandler (dbFails : Bool) : Option (Nat × String) :=
  some (if dbFails then (500, "NOT_READY") else (200, "READY"))

end Legacy

/-- The non-identifier content of a `part_000` student row (used to state
what the renumbering delete preserves). -/
def Legacy.studentContent (r : Legacy.StudentRow) :
    Option String × Option String × Option String :=
  (r.name, r.rollNumber, r.className)

/-- The non-identifier content of a `part_000` teacher row. -/
def Legacy.teacherContent (r : Legacy.TeacherRow) :
    Option String × Option String × Option String :=
  (r.name, r.subject, r.className)

/- =========================================================
   Helper lemmas about the connection retry loop
   ========================================================= -/

/-- If the store fails the first `N` attempts and then succeeds, the loop
started at any attempt `≤ N + 1` returns the pool on attempt `N + 1`,
provided `N + 1 ≤ retries`. -/
theorem connectLoop_pool_of_failsN (N retries : Nat) :
    ∀ d attempt, attempt + d = N + 1 → 1 ≤ attempt → N + 1 ≤ retries →
      connectLoop (fun k => decide (N < k)) retries attempt =
        ConnectOutcome.pool (N + 1) := by
  intro d
  induction d with
  | zero =>
    intro attempt h1 _ h3
    have ha : attempt = N + 1 := by omega
    subst ha
    rw [connectLoop]
    simp [h3]
  | succ d ih =>
    intro attempt h1 h2 h3
    have hle : attempt ≤ retries := by omega
    have hne : attempt ≠ retries := by omega
    have hnot : ¬ N < attempt := by omega
    rw [connectLoop]
    simp only [hle, dif_pos, hnot, decide_eq_true_eq, if_neg, dif_neg hne,
      not_false_eq_true]
    exact ih (attempt + 1) (by omega) (by omega) h3

/-- If the store fails the first `N` attempts and `retries ≤ N`, the loop
started at any attempt `≤ retries` throws the error of attempt `retries`. -/
theorem connectLoop_thrown_of_failsN (N retries : Nat) (hr : retries ≤ N) :
    ∀ d attempt, attempt + d = retries → 1 ≤ attempt →
      connectLoop (fun k => decide (N < k)) retries attempt =
        ConnectOutcome.thrown retries := by
  intro d
  induction d with
  | zero =>
    intro attempt h1 _
    have ha : attempt = retries := by omega
    subst ha
    rw [connectLoop]
    have hnot : ¬ N < attempt := by omega
    simp [hnot]
  | succ d ih =>
    intro attempt h1 h2
    have hle : attempt ≤ retries := by omega
    have hne : attempt ≠ retries := by omega
    have hnot : ¬ N < attempt := by omega
    rw [connectLoop]
    simp only [hle, dif_pos, hnot, decide_eq_true_eq, if_neg, dif_neg hne,
      not_false_eq_true]
    exact ih (attempt + 1) (by omega) (by omega)

/-- C3: for a store that fails the first `N` connection attempts and then
succeeds, `connectWithRetry(retries, delay)` returns the pool on attempt
`N + 1` whenever `N + 1 ≤ retries`; when instead the store fails on all of
the first `retries` attempts (`retries ≤ N`), the error of the last attempt
(attempt `retries`) is propagated to the caller; the parameter defaults are
`retries = 10` and `delay = 3000`. -/
theorem connectWithRetry_failsN_spec (N retries delay : Nat) (hr : 1 ≤ retries) :
    (N + 1 ≤ retries →
      connectWithRetry (fun k => decide (N < k)) retries delay =
        ConnectOutcome.pool (N + 1)) ∧
    (retries ≤ N →
      connectWithRetry (fun k => decide (N < k)) retries delay =
        ConnectOutcome.thrown retries) ∧
    defaultRetries = 10 ∧ defaultDelayMs = 3000 := by
  refine ⟨?_, ?_, rfl, rfl⟩
  · intro h
    exact connectLoop_pool_of_failsN N retries N 1 (by omega) (by omega) h
  · intro h
    exact connectLoop_thrown_of_failsN N retries h (retries - 1) 1 (by omega) (by omega)

/-- Witness for C3: failing twice then succeeding with the default 10
attempts yields the pool on attempt 3; failing always with 4 attempts
throws the error of attempt 4. -/
theorem connectWithRetry_failsN_spec_witness :
    connectWithRetry (fun k => decide (2 < k)) 10 3000 = ConnectOutcome.pool 3 ∧
    connectWithRetry (fun k => decide (5 < k)) 4 3000 = ConnectOutcome.thrown 4 := by
  exact ⟨(connectWithRetry_failsN_spec 2 10 3000 (by decide)).1 (by decide),
         (connectWithRetry_failsN_spec 5 4 3000 (by decide)).2.1 (by decide)⟩

/-- C9: calling `connectWithRetry` with `retries ≤ 0` never runs the loop
body, so the function neither returns a pool nor throws: it resolves to
`undefined` — an outcome outside the stated `pooled connection` contract,
whatever the store does. -/
theorem connectWithRetry_zero_retries (succeeds : Nat → Bool) (retries delay : Nat)
    (h : retries ≤ 0) :
    connectWithRetry succeeds retries delay = ConnectOutcome.undef := by
  have h0 : retries = 0 := by omega
  subst h0
  rw [connectWithRetry, connectLoop]
  simp

/-- Witness for C9 at `retries = 0` with an always-succeeding store. -/
theorem connectWithRetry_zero_retries_witness :
    connectWithRetry (fun _ => true) 0 3000 = ConnectOutcome.undef :=
  connectWithRetry_zero_retries (fun _ => true) 0 3000 (by decide)

/-- C6: in both variants, `GET /health` always answers `200 {status:'UP'}`,
and `GET /ready` always produces a response (the readiness failure is caught,
never propagated): `200 {status:'READY'}` exactly when the trivial query
succeeds and `500 {status:'NOT_READY'}` exactly when it fails. -/
theorem health_ready_contract :
    Server.healthHandler = (200, "UP") ∧ Legacy.healthHandler = (200, "UP") ∧
    Server.readyHandler false = some (200, "READY") ∧
    Server.readyHandler true = some (500, "NOT_READY") ∧
    Legacy.readyHandler false = some (200, "READY") ∧
    Legacy.readyHandler true = some (500, "NOT_READY") ∧
    (∀ b, (Server.readyHandler b).isSome = true) ∧
    (∀ b, (Legacy.readyHandler b).isSome = true) := by
  refine ⟨rfl, rfl, rfl, rfl, rfl, rfl, ?_, ?_⟩ <;> intro b <;> cases b <;> rfl

/-- C7: whenever a required configuration key is unset, the startup check
exits with status 1 naming a missing key (the first falsy one, which is the
unset key itself when it is the only one missing), for every behaviour of
the store and of the table bootstrap — i.e. before any component runs and
before `app.listen` can be reached. -/
theorem missing_env_exits (env : String → Option String) (succeeds : Nat → Bool)
    (tablesOk : Bool) (k : String) (hk : k ∈ REQUIRED_ENV_VARS)
    (hnone : env k = none) :
    (∃ k', firstMissingEnv env = some k' ∧ k' ∈ REQUIRED_ENV_VARS ∧
      falsy (env k') = true) ∧
    startup env succeeds tablesOk = StartupOutcome.exited 1 := by
  have hfk : falsy (env k) = true := by rw [hnone]; rfl
  rcases hsome : firstMissingEnv env with _ | k'
  · exfalso
    have hall := List.find?_eq_none.mp hsome k hk
    rw [hfk] at hall
    exact hall rfl
  · have hfind : REQUIRED_ENV_VARS.find? (fun k => falsy (env k)) = some k' := hsome
    have hp := List.find?_some hfind
    have hmem := List.mem_of_find?_eq_some hfind
    refine ⟨⟨k', rfl, hmem, hp⟩, ?_⟩
    unfold startup
    rw [hsome]

/-- Witness for C7: with `DB_NAME` unset (all other keys present) the
process exits with status 1 regardless of the store behaviour. -/
theorem missing_env_exits_witness :
    startup (fun k => if k = "DB_NAME" then none else some "x") (fun _ => true) true
      = StartupOutcome.exited 1 :=
  (missing_env_exits (fun k => if k = "DB_NAME" then none else some "x")
    (fun _ => true) true "DB_NAME" (by decide) (by simp)).2

/- =========================================================
   Helper lemmas about tables, filters and the renumbering fold
   ========================================================= -/

/-- Filtering out the matched elements and counting the matches partition a
list's length. -/
theorem length_filter_not_add_countP {α : Type} (p : α → Bool) (l : List α) :
    (l.filter fun a => !(p a)).length + l.countP p = l.length := by
  induction l with
  | nil => rfl
  | cons x xs ih =>
    by_cases h : p x = true <;>
      simp [List.filter_cons, List.countP_cons, h] <;> omega

/-- Specialisation of `length_filter_not_add_countP` to the delete query's
predicate on student rows. -/
theorem length_filter_bne_add_countP (i : Nat) (l : List Server.StudentRow) :
    (l.filter fun r => r.id != i).length + l.countP (fun r => r.id == i) =
      l.length := by
  have h := length_filter_not_add_countP (fun r : Server.StudentRow => r.id == i) l
  simpa [bne] using h

/-- One `UPDATE ... SET id = ?` never changes a student row's non-identifier
content. -/
theorem applyIdUpdate_map_content (rows : List Legacy.StudentRow) (a b : Nat) :
    (Legacy.applyIdUpdate rows a b).map Legacy.studentContent =
      rows.map Legacy.studentContent := by
  unfold Legacy.applyIdUpdate
  rw [List.map_map]
  apply List.map_congr_left
  intro r _
  by_cases h : r.id = b <;> simp [h, Legacy.studentContent]

/-- One `UPDATE ... SET id = ?` never changes a teacher row's non-identifier
content. -/
theorem applyTeacherIdUpdate_map_content (rows : List Legacy.TeacherRow) (a b : Nat) :
    (Legacy.applyTeacherIdUpdate rows a b).map Legacy.teacherContent =
      rows.map Legacy.teacherContent := by
  unfold Legacy.applyTeacherIdUpdate
  rw [List.map_map]
  apply List.map_congr_left
  intro r _
  by_cases h : r.id = b <;> simp [h, Legacy.teacherContent]

/-- A fold of identifier updates never changes non-identifier content
(students). -/
theorem foldl_applyIdUpdate_content (ps : List (Nat × Nat))
    (rows : List Legacy.StudentRow) :
    ((ps.foldl (fun acc p => Legacy.applyIdUpdate acc (p.fst + 1) p.snd)
        rows).map Legacy.studentContent) = rows.map Legacy.studentContent := by
  induction ps generalizing rows with
  | nil => rfl
  | cons p ps ih => rw [List.foldl_cons, ih, applyIdUpdate_map_content]

/-- A fold of identifier updates never changes non-identifier content
(teachers). -/
theorem foldl_applyTeacherIdUpdate_content (ps : List (Nat × Nat))
    (rows : List Legacy.TeacherRow) :
    ((ps.foldl (fun acc p => Legacy.applyTeacherIdUpdate acc (p.fst + 1) p.snd)
        rows).map Legacy.teacherContent) = rows.map Legacy.teacherContent := by
  induction ps generalizing rows with
  | nil => rfl
  | cons p ps ih => rw [List.foldl_cons, ih, applyTeacherIdUpdate_map_content]

/-- The `part_000` renumbering step preserves the student rows'
non-identifier content. -/
theorem renumberStudents_content (rows : List Legacy.StudentRow) :
    (Legacy.renumberStudents rows).map Legacy.studentContent =
      rows.map Legacy.studentContent :=
  foldl_applyIdUpdate_content _ _

/-- The `part_000` renumbering step preserves the teacher rows'
non-identifier content. -/
theorem renumberTeachers_content (rows : List Legacy.TeacherRow) :
    (Legacy.renumberTeachers rows).map Legacy.teacherContent =
      rows.map Legacy.teacherContent :=
  foldl_applyTeacherIdUpdate_content _ _

/-- C8 (amended): in the `server.js` variant the pool is configured with the
value of `DB_PORT` when it is set non-empty and with 3306 when it is unset
(or empty, `||` treating the empty string as unset); the `part_000` variant
hardcodes port 3306 and ignores `DB_PORT` entirely. -/
theorem db_port_amended :
    (∀ env : String → Option String,
      env "DB_PORT" = none → (Server.poolConfig env).port = "3306") ∧
    (∀ (env : String → Option String) (s : String),
      env "DB_PORT" = some s → s ≠ "" → (Server.poolConfig env).port = s) ∧
    (∀ env : String → Option String, (Legacy.poolConfig env).port = 3306) := by
  refine ⟨?_, ?_, fun env => rfl⟩
  · intro env h
    simp [Server.poolConfig, h]
  · intro env s h hs
    simp [Server.poolConfig, h, hs]

/-- C8 counterexample: with `DB_PORT` set to `"5000"`, the `part_000` pool is
still configured with port 3306, not the port given by `DB_PORT`. -/
theorem db_port_counterexample :
    (fun k => if k = "DB_PORT" then some "5000" else some "x") "DB_PORT" =
      some "5000" ∧
    (Legacy.poolConfig
      (fun k => if k = "DB_PORT" then some "5000" else some "x")).port = 3306 ∧
    (Legacy.poolConfig
      (fun k => if k = "DB_PORT" then some "5000" else some "x")).port ≠ 5000 := by
  refine ⟨by simp, rfl, by decide⟩

/-- C1 (amended): in the `server.js` variant, delete-by-identifier answers
200 whether or not a row matched, removes only rows whose identifier matches,
and leaves every other row — identifier included — unchanged, for both
resources.  In the `part_000` variant the handler also answers 200 and
removes only matching rows, but it then renumbers all remaining identifiers
sequentially, so other rows' identifiers are not preserved (only their
non-identifier content is: e.g. deleting the absent identifier 5 from a
table whose single row has identifier 2 changes that identifier to 1). -/
theorem delete_by_id_amended :
    (∀ (t : Server.StudentTable) (i : Nat),
      (Server.deleteStudentHandler false t i).1 =
        HResult.resp 200 "Student deleted successfully" ∧
      (∀ r ∈ (Server.deleteStudentHandler false t i).2.rows,
        r ∈ t.rows ∧ r.id ≠ i) ∧
      (∀ r ∈ t.rows, r.id ≠ i →
        r ∈ (Server.deleteStudentHandler false t i).2.rows)) ∧
    (∀ (t : Server.TeacherTable) (i : Nat),
      (Server.deleteTeacherHandler false t i).1 =
        HResult.resp 200 "Teacher deleted successfully" ∧
      (∀ r ∈ (Server.deleteTeacherHandler false t i).2.rows,
        r ∈ t.rows ∧ r.id ≠ i) ∧
      (∀ r ∈ t.rows, r.id ≠ i →
        r ∈ (Server.deleteTeacherHandler false t i).2.rows)) ∧
    (∀ (t : Legacy.StudentTable) (i : Nat),
      (Legacy.deleteStudentHandler false t i).1 =
        HResult.resp 200 "Student deleted successfully" ∧
      (Legacy.deleteStudentHandler false t i).2.rows.map Legacy.studentContent =
        (t.rows.filter (fun r => r.id != i)).map Legacy.studentContent) ∧
    (∀ (t : Legacy.TeacherTable) (i : Nat),
      (Legacy.deleteTeacherHandler false t i).1 =
        HResult.resp 200 "Teacher deleted successfully" ∧
      (Legacy.deleteTeacherHandler false t i).2.rows.map Legacy.teacherContent =
        (t.rows.filter (fun r => r.id != i)).map Legacy.teacherContent) := by
  refine ⟨?_, ?_, ?_, ?_⟩
  · intro t i
    refine ⟨rfl, ?_, ?_⟩
    · intro r hr
      simp only [Server.deleteStudentHandler, Server.deleteStudentRows,
        Bool.false_eq_true, if_false, List.mem_filter, bne_iff_ne, ne_eq] at hr
      exact hr
    · intro r hr hne
      simp only [Server.deleteStudentHandler, Server.deleteStudentRows,
        Bool.false_eq_true, if_false, List.mem_filter, bne_iff_ne, ne_eq]
      exact ⟨hr, hne⟩
  · intro t i
    refine ⟨rfl, ?_, ?_⟩
    · intro r hr
      simp only [Server.deleteTeacherHandler, Server.deleteTeacherRows,
        Bool.false_eq_true, if_false, List.mem_filter, bne_iff_ne, ne_eq] at hr
      exact hr
    · intro r hr hne
      simp only [Server.deleteTeacherHandler, Server.deleteTeacherRows,
        Bool.false_eq_true, if_false, List.mem_filter, bne_iff_ne, ne_eq]
      exact ⟨hr, hne⟩
  · intro t i
    exact ⟨rfl, renumberStudents_content _⟩
  · intro t i
    exact ⟨rfl, renumberTeachers_content _⟩

/-- C1 counterexample: deleting the absent identifier 5 in `part_000` from a
student table whose single row has identifier 2 answers 200 but changes that
row's identifier to 1 — another row's identifier is altered. -/
theorem delete_by_id_counterexample :
    ((⟨[⟨2, some "a", some "r", some "c"⟩]⟩ : Legacy.StudentTable).rows.map
      (fun r => r.id)) = [2] ∧
    (Legacy.deleteStudentHandler false ⟨[⟨2, some "a", some "r", some "c"⟩]⟩ 5).1 =
      HResult.resp 200 "Student deleted successfully" ∧
    ((Legacy.deleteStudentHandler false
        ⟨[⟨2, some "a", some "r", some "c"⟩]⟩ 5).2.rows.map (fun r => r.id)) = [1] ∧
    ¬ ((Legacy.deleteStudentHandler false
        ⟨[⟨2, some "a", some "r", some "c"⟩]⟩ 5).2.rows.map (fun r => r.id)) = [2] := by
  refine ⟨rfl, rfl, by decide, by decide⟩

/-- C2 (amended): in the `server.js` variant, a create request with any
required field absent or empty answers 400 and leaves the table — and hence
the list count — unchanged, and a row is inserted exactly when all required
fields are present and non-empty; the `part_000` variant performs no
validation: even with `rollNo` absent it inserts a row and answers 200. -/
theorem create_validation_amended :
    (∀ (dbFails : Bool) (t : Server.StudentTable)
        (name rollNo className : Option String),
      (falsy name || falsy rollNo || falsy className) = true →
        Server.addStudentHandler dbFails t name rollNo className =
          (HResult.resp 400 "Invalid payload: name, rollNo, class required", t)) ∧
    (∀ (t : Server.StudentTable) (name rollNo className : Option String),
      (falsy name || falsy rollNo || falsy className) = false →
        (Server.addStudentHandler false t name rollNo className).1 =
          HResult.resp 201 "Student added successfully" ∧
        (Server.addStudentHandler false t name rollNo className).2.rows.length =
          t.rows.length + 1) ∧
    (∀ (dbFails : Bool) (t : Server.TeacherTable)
        (name subject className : Option String),
      (falsy name || falsy subject || falsy className) = true →
        Server.addTeacherHandler dbFails t name subject className =
          (HResult.resp 400 "Invalid payload", t)) ∧
    (∀ (t : Server.TeacherTable) (name subject className : Option String),
      (falsy name || falsy subject || falsy className) = false →
        (Server.addTeacherHandler false t name subject className).1 =
          HResult.resp 201 "Teacher added successfully" ∧
        (Server.addTeacherHandler false t name subject className).2.rows.length =
          t.rows.length + 1) ∧
    (∀ (t : Legacy.StudentTable) (name className : Option String),
      (Legacy.addStudentHandler false t name none className).1 =
        HResult.resp 200 "Student added successfully" ∧
      (Legacy.addStudentHandler false t name none className).2.rows.length =
        t.rows.length + 1) := by
  refine ⟨?_, ?_, ?_, ?_, ?_⟩
  · intro dbFails t name rollNo className h
    simp [Server.addStudentHandler, h]
  · intro t name rollNo className h
    refine ⟨?_, ?_⟩ <;> simp [Server.addStudentHandler, h, Server.insertStudent]
  · intro dbFails t name subject className h
    simp [Server.addTeacherHandler, h]
  · intro t name subject className h
    refine ⟨?_, ?_⟩ <;> simp [Server.addTeacherHandler, h, Server.insertTeacher]
  · intro t name className
    refine ⟨rfl, ?_⟩
    simp [Legacy.addStudentHandler]

/-- C2 counterexample: a `part_000` create with `rollNo` absent answers 200
— not a 400 client error — and a row is inserted (the list count grows). -/
theorem create_validation_counterexample :
    falsy none = true ∧
    (Legacy.addStudentHandler false ⟨[]⟩ (some "alice") none (some "10A")).1 =
      HResult.resp 200 "Student added successfully" ∧
    (Legacy.addStudentHandler false ⟨[]⟩ (some "alice") none (some "10A")).2.rows.length
      = 1 ∧
    ¬ (Legacy.addStudentHandler false ⟨[]⟩ (some "alice") none (some "10A")).1 =
      HResult.resp 400 "Invalid payload: name, rollNo, class required" := by
  refine ⟨rfl, rfl, rfl, by simp [Legacy.addStudentHandler]⟩

/-- C4 (amended): in the `server.js` variant a create with all fields
present and non-empty answers 201 and the table afterwards is exactly the
previous rows with one record appended carrying the submitted values and the
store-assigned identifier (a subsequent list call, which returns the rows,
shows count+1 with the new record appended); deleting an identifier held by
exactly one row leaves count−1 with that identifier absent.  The `part_000`
variant instead answers 200 (not 201), appending the record with the
application-computed identifier max-plus-one. -/
theorem create_list_roundtrip_amended :
    (∀ (t : Server.StudentTable) (name rollNo className : String),
      name ≠ "" → rollNo ≠ "" → className ≠ "" →
        Server.addStudentHandler false t (some name) (some rollNo) (some className) =
          (HResult.resp 201 "Student added successfully",
            ⟨t.rows ++ [⟨t.nextId, name, rollNo, className⟩], t.nextId + 1⟩)) ∧
    (∀ t : Server.StudentTable,
      Server.getStudentHandler false t = some (200, t.rows)) ∧
    (∀ (t : Server.StudentTable) (i : Nat),
      t.rows.countP (fun r => r.id == i) = 1 →
        (Server.deleteStudentHandler false t i).2.rows.length + 1 =
          t.rows.length ∧
        ∀ r ∈ (Server.deleteStudentHandler false t i).2.rows, r.id ≠ i) ∧
    (∀ (t : Legacy.StudentTable) (name rollNo className : Option String),
      (Legacy.addStudentHandler false t name rollNo className).1 =
        HResult.resp 200 "Student added successfully" ∧
      (Legacy.addStudentHandler false t name rollNo className).2.rows =
        t.rows ++ [⟨Legacy.getLastStudentID t + 1, name, rollNo, className⟩]) := by
  refine ⟨?_, fun t => rfl, ?_, fun t name rollNo className => ⟨rfl, rfl⟩⟩
  · intro t name rollNo className hn hr hc
    simp [Server.addStudentHandler, falsy, hn, hr, hc, Server.insertStudent]
  · intro t i h
    constructor
    · have h2 := length_filter_bne_add_countP i t.rows
      show (List.filter (fun r => r.id != i) t.rows).length + 1 = t.rows.length
      omega
    · intro r hr
      simp only [Server.deleteStudentHandler, Server.deleteStudentRows,
        Bool.false_eq_true, if_false, List.mem_filter, bne_iff_ne, ne_eq] at hr
      exact hr.2

/-- C4 counterexample: a `part_000` create with all fields present answers
200, not the 201 success status the claim states. -/
theorem create_list_roundtrip_counterexample :
    (Legacy.addStudentHandler false ⟨[]⟩ (some "bob") (some "7") (some "9B")).1 =
      HResult.resp 200 "Student added successfully" ∧
    ¬ (Legacy.addStudentHandler false ⟨[]⟩ (some "bob") (some "7") (some "9B")).1 =
      HResult.resp 201 "Student added successfully" := by
  refine ⟨rfl, by simp [Legacy.addStudentHandler]⟩

/-- C5 (amended): in the `server.js` variant every insert lets the store
assign the identifier — the appended row carries the AUTO_INCREMENT counter
value, the counter advances by one (monotone assignment), the new identifier
is fresh in any table satisfying the counter invariant (uniqueness), and the
invariant is preserved — and no operation ever changes an existing row's
identifier (rows surviving a delete are rows of the original table,
unchanged).  The `part_000` variant instead computes max-id-plus-one in the
application for every insert and its delete renumbers identifiers, so there
identifiers are neither exclusively store-assigned nor stable once
assigned. -/
theorem id_assignment_amended :
    (∀ (t : Server.StudentTable) (name rollNo className : String),
      ((Server.insertStudent t name rollNo className).rows.map (fun r => r.id)) =
        t.rows.map (fun r => r.id) ++ [t.nextId] ∧
      (Server.insertStudent t name rollNo className).nextId = t.nextId + 1 ∧
      ((∀ r ∈ t.rows, r.id < t.nextId) →
        (∀ r ∈ t.rows, r.id ≠ t.nextId) ∧
        (∀ r ∈ (Server.insertStudent t name rollNo className).rows,
          r.id < (Server.insertStudent t name rollNo className).nextId))) ∧
    (∀ (t : Server.StudentTable) (i : Nat) (r : Server.StudentRow),
      r ∈ (Server.deleteStudentRows t i).rows → r ∈ t.rows) ∧
    (∀ (t : Server.TeacherTable) (name subject className : String),
      ((Server.insertTeacher t name subject className).rows.map (fun r => r.id)) =
        t.rows.map (fun r => r.id) ++ [t.nextId] ∧
      (Server.insertTeacher t name subject className).nextId = t.nextId + 1) ∧
    (∀ (t : Server.TeacherTable) (i : Nat) (r : Server.TeacherRow),
      r ∈ (Server.deleteTeacherRows t i).rows → r ∈ t.rows) ∧
    (∀ (t : Legacy.StudentTable) (name rollNo className : Option String),
      ((Legacy.addStudentHandler false t name rollNo className).2.rows.map
        (fun r => r.id)) =
        t.rows.map (fun r => r.id) ++ [Legacy.getLastStudentID t + 1]) := by
  refine ⟨?_, ?_, ?_, ?_, ?_⟩
  · intro t name rollNo className
    refine ⟨by simp [Server.insertStudent], rfl, ?_⟩
    intro hinv
    constructor
    · intro r hr
      have := hinv r hr
      omega
    · intro r hr
      simp only [Server.insertStudent, List.mem_append, List.mem_singleton] at hr ⊢
      rcases hr with hr | hr
      · have := hinv r hr
        omega
      · subst hr
        exact Nat.lt_succ_self t.nextId
  · intro t i r hr
    simp only [Server.deleteStudentRows, List.mem_filter] at hr
    exact hr.1
  · intro t name subject className
    exact ⟨by simp [Server.insertTeacher], rfl⟩
  · intro t i r hr
    simp only [Server.deleteTeacherRows, List.mem_filter] at hr
    exact hr.1
  · intro t name rollNo className
    simp [Legacy.addStudentHandler]

/-- C5 counterexample: in `part_000` a row holds the assigned identifier 3;
after deleting the absent identifier 9 — an operation that should not touch
it — the table no longer contains identifier 3: the delete renumbered it to
1, so an assigned identifier was changed by a subsequent operation. -/
theorem id_assignment_counterexample :
    ((⟨[⟨3, some "n", some "r", some "c"⟩]⟩ : Legacy.StudentTable).rows.map
      (fun r => r.id)) = [3] ∧
    ((Legacy.deleteStudentHandler false
        ⟨[⟨3, some "n", some "r", some "c"⟩]⟩ 9).2.rows.map (fun r => r.id)) = [1] ∧
    ¬ (3 : Nat) ∈ ((Legacy.deleteStudentHandler false
        ⟨[⟨3, some "n", some "r", some "c"⟩]⟩ 9).2.rows.map (fun r => r.id)) := by
  refine ⟨rfl, by decide, by decide⟩

/-- C10 (amended): in both variants the list handlers (`GET /`,
`GET /student`, `GET /teacher`) have no error branch — when the store query
fails they produce no response and the error propagates out of the handler.
In the `server.js` variant this contrasts with the create and delete
handlers, which catch store errors and answer 500; in the `part_000` variant
the create and delete handlers have no catch either and propagate just the
same. -/
theorem list_handlers_propagate_amended :
    (∀ t : Server.StudentTable, Server.getStudentHandler true t = none) ∧
    (∀ t : Server.TeacherTable, Server.getTeacherHandler true t = none) ∧
    (∀ t : Server.StudentTable, Server.rootHandler true t = none) ∧
    (∀ (t : Server.StudentTable) (name rollNo className : Option String),
      (falsy name || falsy rollNo || falsy className) = false →
        (Server.addStudentHandler true t name rollNo className).1 =
          HResult.resp 500 "Internal server error") ∧
    (∀ (t : Server.StudentTable) (i : Nat),
      (Server.deleteStudentHandler true t i).1 =
        HResult.resp 500 "Internal server error") ∧
    (∀ (t : Server.TeacherTable) (i : Nat),
      (Server.deleteTeacherHandler true t i).1 =
        HResult.resp 500 "Internal server error") ∧
    (∀ t : Legacy.StudentTable, Legacy.getStudentHandler true t = none) ∧
    (∀ t : Legacy.TeacherTable, Legacy.getTeacherHandler true t = none) ∧
    (∀ t : Legacy.StudentTable, Legacy.rootHandler true t = none) ∧
    (∀ (t : Legacy.StudentTable) (name rollNo className : Option String),
      (Legacy.addStudentHandler true t name rollNo className).1 = HResult.raise) ∧
    (∀ (t : Legacy.StudentTable) (i : Nat),
      (Legacy.deleteStudentHandler true t i).1 = HResult.raise) ∧
    (∀ (t : Legacy.TeacherTable) (i : Nat),
      (Legacy.deleteTeacherHandler true t i).1 = HResult.raise) := by
  refine ⟨fun t => rfl, fun t => rfl, fun t => rfl, ?_, fun t i => rfl,
    fun t i => rfl, fun t => rfl, fun t => rfl, fun t => rfl,
    fun t name rollNo className => rfl, fun t i => rfl, fun t i => rfl⟩
  intro t name rollNo className h
  simp [Server.addStudentHandler, h]

/-- C10 counterexample: when the store fails, the `part_000` create handler
does not catch the error and answer 500 — it produces no response at all
(the error propagates). -/
theorem list_handlers_counterexample :
    (Legacy.addStudentHandler true ⟨[]⟩ (some "a") (some "r") (some "c")).1 =
      HResult.raise ∧
    ¬ (Legacy.addStudentHandler true ⟨[]⟩ (some "a") (some "r") (some "c")).1 =
      HResult.resp 500 "Internal server error" := by
  refine ⟨rfl, by simp [Legacy.addStudentHandler]⟩
